import Mathlib

/-!
Verification of the dash-ai-chat provider/registry/conversation-store layer.

Shallow embedding of:
  * `src/dash_ai_chat/providers.py` — the four-method provider adapters
    (`client_factory`, `call`, `extract`, `format_messages`) and
    `build_default_registry`;
  * `src/dash_ai_chat/dash_ai_chat.py` — the `AI_REGISTRY` dict built in
    `DashAIChat.__init__`;
  * `examples/10_generate_speech.py` / `examples/11_generate_speech_advanced.py`
    — `update_convo` of the speech-generator subclasses;
  * the conversation store (`add_message` and message reload), which is not
    among the source files here and is modelled from the spec.

Python values are embedded as follows: JSON-like provider responses become
`JValue`; raised exceptions become `Except PyError`; `os.environ` becomes a
function `String → Option String`; the registry dict becomes an association
list with Python-dict insert/overwrite semantics.
-/

/-- A chat message as stored per conversation: a dict with `"role"` and
`"content"` keys, plus the optional auxiliary `"audio_file"` key used by the
speech examples. -/
structure Message where
  role : String
  content : String
  audio_file : Option String := none
deriving Repr, DecidableEq

/-- A role/content record as sent to a remote API, the shape produced by
`format_messages` of the OpenAI and Anthropic chat adapters
(`{"role": m["role"], "content": m["content"]}`). -/
structure RC where
  role : String
  content : String
deriving Repr, DecidableEq

/-- JSON-like provider responses (Python dicts, lists and strings). -/
inductive JValue where
  | str (s : String)
  | num (n : Int)
  | arr (xs : List JValue)
  | obj (fields : List (String × JValue))

/-- Python exceptions that the embedded code can raise. -/
inductive PyError where
  | keyError (k : String)
  | indexError
  | nameError (n : String)
  | typeError
  | attributeError (a : String)
deriving Repr, DecidableEq

/-- An API client handle, remembering which vendor constructed it and the
api key it was constructed with. -/
structure Client where
  vendor : String
  api_key : String
deriving Repr, DecidableEq

/-- The process environment (`os.environ`): `none` means the variable is
unset, in which case `os.environ[k]` raises `KeyError(k)`. -/
def EnvMap : Type := String → Option String

/-- Association lookup on the fields of a Python dict literal. -/
def lookupField : List (String × JValue) → String → Option JValue
  | [], _ => none
  | (k, v) :: rest, key => if k = key then some v else lookupField rest key

/-- `d[key]` on a dict: `KeyError` when the key is missing, `TypeError` when
the value is not a dict. -/
def JValue.getItem : JValue → String → Except PyError JValue
  | .obj fields, key =>
      match lookupField fields key with
      | some v => .ok v
      | none => .error (.keyError key)
  | _, _ => .error .typeError

/-- `xs[i]` on a list (non-negative index): `IndexError` when out of range,
`TypeError` when the value is not a list. -/
def JValue.index : JValue → Nat → Except PyError JValue
  | .arr xs, i =>
      match xs.get? i with
      | some v => .ok v
      | none => .error .indexError
  | _, _ => .error .typeError

/-- The message shapes that `format_messages` can produce: a list of
role/content records, a flattened prompt string, or the raw history. -/
inductive Formatted where
  | records (rs : List RC)
  | prompt (s : String)
  | raw (ms : List Message)

/-- The provider-specific requests the adapters submit to the remote API. -/
inductive Request where
  | openaiChat (model : String) (messages : List RC)
  | openaiCompletions (model : String) (prompt : String)
  | geminiSend (model : String) (message : String)
  | anthropicMessages (model : String) (messages : List RC) (max_tokens : Nat)

/-- Names imported at module scope of `providers.py`: only `os`.  The name
`OpenAI` is imported only in the local scope of
`OpenAIChatCompletions.client_factory` (`from openai import OpenAI` inside the
method body), so it is not visible to the other classes. -/
def providersModuleScope : List String := ["os"]

namespace OpenAIChatCompletions

/-- `providers.py` lines 21–25: `from openai import OpenAI` locally, then
`OpenAI(api_key=os.environ["OPENAI_API_KEY"])`. -/
def client_factory (env : EnvMap) : Except PyError Client :=
  match env "OPENAI_API_KEY" with
  | some k => .ok { vendor := "openai", api_key := k }
  | none => .error (.keyError "OPENAI_API_KEY")

/-- `providers.py` lines 27–29:
`client.chat.completions.create(model=model, messages=messages, **kwargs)`. -/
def call (_client : Client) (messages : List RC) (model : String) : Request :=
  .openaiChat model messages

/-- `providers.py` lines 31–33:
`response["choices"][0]["message"]["content"]`. -/
def extract (response : JValue) : Except PyError JValue := do
  let choices ← response.getItem "choices"
  let c0 ← choices.index 0
  let msg ← c0.getItem "message"
  msg.getItem "content"

/-- `providers.py` lines 35–37:
`[{"role": m["role"], "content": m["content"]} for m in history]`. -/
def format_messages (history : List Message) : List RC :=
  history.map (fun m => { role := m.role, content := m.content })

end OpenAIChatCompletions

namespace OpenAIResponses

/-- `providers.py` lines 43–45:
`return OpenAI(api_key=os.environ["OPENAI_API_KEY"])`.  Python resolves the
callee name `OpenAI` before evaluating its arguments; the name is bound
neither locally nor at module scope (see `providersModuleScope`), so the
call raises `NameError` before `os.environ` is consulted. -/
def client_factory (_env : EnvMap) : Except PyError Client :=
  if "OpenAI" ∈ providersModuleScope then
    .error .typeError
  else
    .error (.nameError "OpenAI")

/-- `providers.py` lines 47–49:
`client.completions.create(model=model, prompt=formatted_prompt, **kwargs)`. -/
def call (_client : Client) (formatted_prompt : String) (model : String) : Request :=
  .openaiCompletions model formatted_prompt

/-- `providers.py` lines 51–53: `response.choices[0].text`; attribute access
on the response object is modelled as field lookup. -/
def extract (response : JValue) : Except PyError JValue := do
  let choices ← response.getItem "choices"
  let c0 ← choices.index 0
  c0.getItem "text"

/-- `providers.py` lines 55–57:
`"\n".join(f-string of role and content for m in history)`. -/
def format_messages (history : List Message) : String :=
  String.intercalate "\n" (history.map (fun m => m.role ++ ": " ++ m.content))

end OpenAIResponses

namespace GeminiChatCompletions

/-- `providers.py` lines 63–67: `from google import genai` locally, then
`genai.Client(api_key=os.environ["GEMINI_API_KEY"])`. -/
def client_factory (env : EnvMap) : Except PyError Client :=
  match env "GEMINI_API_KEY" with
  | some k => .ok { vendor := "gemini", api_key := k }
  | none => .error (.keyError "GEMINI_API_KEY")

/-- `providers.py` lines 69–74: `chat = client.chats.create(model=model)`;
`current_message = messages[-1]["content"]`; `chat.send_message(current_message)`.
`messages[-1]` raises `IndexError` on an empty list. -/
def call (_client : Client) (messages : List Message) (model : String) :
    Except PyError Request :=
  match messages.getLast? with
  | some m => .ok (.geminiSend model m.content)
  | none => .error .indexError

/-- `providers.py` lines 76–78:
`response["candidates"][0]["content"]["parts"][0]["text"]`. -/
def extract (response : JValue) : Except PyError JValue := do
  let candidates ← response.getItem "candidates"
  let c0 ← candidates.index 0
  let content ← c0.getItem "content"
  let parts ← content.getItem "parts"
  let p0 ← parts.index 0
  p0.getItem "text"

/-- `providers.py` lines 80–82: `return history` (formatting is handled in
the call method). -/
def format_messages (history : List Message) : List Message :=
  history

end GeminiChatCompletions

namespace AnthropicChatCompletions

/-- `providers.py` lines 88–92: `from anthropic import Anthropic` locally,
then `Anthropic(api_key=os.environ["ANTHROPIC_API_KEY"])`. -/
def client_factory (env : EnvMap) : Except PyError Client :=
  match env "ANTHROPIC_API_KEY" with
  | some k => .ok { vendor := "anthropic", api_key := k }
  | none => .error (.keyError "ANTHROPIC_API_KEY")

/-- `providers.py` lines 94–99:
`client.messages.create(model=model, messages=messages, max_tokens=1000, **kwargs)`. -/
def call (_client : Client) (messages : List RC) (model : String) : Request :=
  .anthropicMessages model messages 1000

/-- `providers.py` lines 101–103: `response["content"][0]["text"]`. -/
def extract (response : JValue) : Except PyError JValue := do
  let content ← response.getItem "content"
  let c0 ← content.index 0
  c0.getItem "text"

/-- `providers.py` lines 105–107:
`[{"role": m["role"], "content": m["content"]} for m in history]`. -/
def format_messages (history : List Message) : List RC :=
  history.map (fun m => { role := m.role, content := m.content })

end AnthropicChatCompletions

/-- A registry value: the set of capabilities the registered object provides,
each `none` when the object has no such method or dict key.  A `providers.py`
class instance provides all four; the dict literals registered in
`DashAIChat.__init__` provide only `call`, `extract` and `format_messages`.
The `call` capability is wrapped to the uniform type
`Client → Formatted → String → Except PyError Request`. -/
structure AdapterEntry where
  client_factory : Option (EnvMap → Except PyError Client)
  call : Option (Client → Formatted → String → Except PyError Request)
  extract : Option (JValue → Except PyError JValue)
  format_messages : Option (List Message → Formatted)

/-- A Python dict key as used for the provider registries: either a string
such as `"openai:chat.completions"` (as in `build_default_registry` and the
examples) or a tuple such as `("openai", "chat.completions")` (as in
`DashAIChat.__init__`). -/
inductive RegKey where
  | s (key : String)
  | p (vendor api : String)
deriving Repr, DecidableEq

/-- The provider registry: a key-to-entry mapping with Python-dict
semantics. -/
abbrev Registry := List (RegKey × AdapterEntry)

/-- Dict lookup `d[k]`. -/
def Registry.lookup : Registry → RegKey → Option AdapterEntry
  | [], _ => none
  | (k, v) :: rest, key => if k = key then some v else Registry.lookup rest key

/-- Dict assignment `d[k] = v`: overwrites in place when the key is present
(Python dicts keep the original insertion position), appends otherwise. -/
def Registry.insert : Registry → RegKey → AdapterEntry → Registry
  | [], key, v => [(key, v)]
  | (k, v') :: rest, key, v =>
      if k = key then (key, v) :: rest else (k, v') :: Registry.insert rest key v

/-- `OpenAIChatCompletions()` packaged as a registry entry. -/
def OpenAIChatCompletions.entry : AdapterEntry where
  client_factory := some OpenAIChatCompletions.client_factory
  call := some (fun c f m =>
    match f with
    | .records rs => .ok (OpenAIChatCompletions.call c rs m)
    | _ => .error .typeError)
  extract := some OpenAIChatCompletions.extract
  format_messages := some (fun h => .records (OpenAIChatCompletions.format_messages h))

/-- `OpenAIResponses()` packaged as a registry entry (not registered by
default: the `"openai:responses"` line of `build_default_registry` is
commented out). -/
def OpenAIResponses.entry : AdapterEntry where
  client_factory := some OpenAIResponses.client_factory
  call := some (fun c f m =>
    match f with
    | .prompt s => .ok (OpenAIResponses.call c s m)
    | _ => .error .typeError)
  extract := some OpenAIResponses.extract
  format_messages := some (fun h => .prompt (OpenAIResponses.format_messages h))

/-- `GeminiChatCompletions()` packaged as a registry entry. -/
def GeminiChatCompletions.entry : AdapterEntry where
  client_factory := some GeminiChatCompletions.client_factory
  call := some (fun c f m =>
    match f with
    | .raw ms => GeminiChatCompletions.call c ms m
    | _ => .error .typeError)
  extract := some GeminiChatCompletions.extract
  format_messages := some (fun h => .raw (GeminiChatCompletions.format_messages h))

/-- `AnthropicChatCompletions()` packaged as a registry entry. -/
def AnthropicChatCompletions.entry : AdapterEntry where
  client_factory := some AnthropicChatCompletions.client_factory
  call := some (fun c f m =>
    match f with
    | .records rs => .ok (AnthropicChatCompletions.call c rs m)
    | _ => .error .typeError)
  extract := some AnthropicChatCompletions.extract
  format_messages := some (fun h => .records (AnthropicChatCompletions.format_messages h))

/-- `providers.py` lines 110–117, `build_default_registry`: string keys; the
`"openai:responses"` entry is commented out. -/
def build_default_registry : Registry :=
  [(.s "openai:chat.completions", OpenAIChatCompletions.entry),
   (.s "gemini:chat.completions", GeminiChatCompletions.entry),
   (.s "anthropic:chat.completions", AnthropicChatCompletions.entry)]

/-- `dash_ai_chat.py` lines 27–37, the `("openai", "chat.completions")` dict
of `DashAIChat.__init__`'s `AI_REGISTRY`: keys `"call"`, `"extract"`,
`"format_messages"` only, no `"client_factory"`.  Its `call` lambda reads
`self.client`, an attribute `DashAIChat.__init__` never assigns, so invoking
it raises `AttributeError("client")`. -/
def dashOpenAIChatEntry : AdapterEntry where
  client_factory := none
  call := some (fun _ _ _ => .error (.attributeError "client"))
  extract := some OpenAIChatCompletions.extract
  format_messages := some (fun h =>
    .records (h.map (fun m => { role := m.role, content := m.content })))

/-- `dash_ai_chat.py` lines 38–46, the `("openai", "completions")` dict of
`DashAIChat.__init__`'s `AI_REGISTRY`: keys `"call"`, `"extract"`,
`"format_messages"` only, no `"client_factory"`; `extract` is
`resp["choices"][0]["text"]` and `format_messages` joins
`"role: content"` lines. -/
def dashOpenAICompletionsEntry : AdapterEntry where
  client_factory := none
  call := some (fun _ _ _ => .error (.attributeError "client"))
  extract := some (fun resp => do
    let choices ← resp.getItem "choices"
    let c0 ← choices.index 0
    c0.getItem "text")
  format_messages := some (fun h =>
    .prompt (String.intercalate "\n" (h.map (fun m => m.role ++ ": " ++ m.content))))

/-- `dash_ai_chat.py` lines 26–47: the `AI_REGISTRY` dict built in
`DashAIChat.__init__`.  Its keys are the tuples
`("openai", "chat.completions")` and `("openai", "completions")`. -/
def dashAIChatInitRegistry : Registry :=
  [(.p "openai" "chat.completions", dashOpenAIChatEntry),
   (.p "openai" "completions", dashOpenAICompletionsEntry)]

/-- An entry provides all four capabilities of the adapter contract. -/
def AdapterEntry.hasAllFour (e : AdapterEntry) : Prop :=
  e.client_factory.isSome ∧ e.call.isSome ∧ e.extract.isSome ∧ e.format_messages.isSome

/-- The claim-level invariant: every entry of the registry provides all four
capabilities. -/
def allImplementFour (r : Registry) : Prop :=
  ∀ ke : RegKey × AdapterEntry, ke ∈ r → ke.2.hasAllFour

/-- The claim-level key invariant: every key of the registry is a string of
the form `"<vendor>:<api>"`. -/
def allKeysVendorApiStrings (r : Registry) : Prop :=
  ∀ ke : RegKey × AdapterEntry, ke ∈ r →
    ∃ v a, v ≠ "" ∧ a ≠ "" ∧ ke.1 = .s (v ++ ":" ++ a)

/-- Running an entry's four methods in sequence, the way `update_convo`
consumes an adapter: build the client, format the history, submit the call,
extract from the remote's response.  `remote` is the remote API, mapping the
submitted request to its raw response.  An entry lacking a capability fails
at attribute lookup. -/
def runEntry (e : AdapterEntry) (env : EnvMap) (remote : Request → JValue)
    (history : List Message) (model : String) : Except PyError JValue :=
  match e.client_factory, e.call, e.extract, e.format_messages with
  | some cf, some callFn, some ex, some fm => do
      let client ← cf env
      let req ← callFn client (fm history) model
      ex (remote req)
  | _, _, _, _ => .error (.attributeError "client_factory")

/-- Registry-driven dispatch: look the key up, then run the entry found;
`KeyError` when the key is absent. -/
def Registry.dispatch (r : Registry) (key : RegKey) (env : EnvMap)
    (remote : Request → JValue) (history : List Message) (model : String) :
    Except PyError JValue :=
  match r.lookup key with
  | some e => runEntry e env remote history model
  | none => .error (.keyError "provider_spec")

/-- Modelled from the spec: the conversation store.  Its implementation
(`DashAIChat.add_message` and the message reload) is part of the repository
but not among the source files here — only its callers (`update_convo` in
the examples) appear.  Per spec §3, §4.3 and §6: an append-only, ordered
message log kept in one file per conversation, the file keyed by the
`(user_id, conversation_id)` pair and read fully on every access. -/
def Store : Type := List ((String × String) × List Message)

/-- Modelled from the spec: reload the messages of conversation
`(user_id, convo_id)`; a conversation with no file yet reads as empty. -/
def Store.getMessages : Store → String → String → List Message
  | [], _, _ => []
  | (k, msgs) :: rest, user_id, convo_id =>
      if k = (user_id, convo_id) then msgs
      else Store.getMessages rest user_id convo_id

/-- Modelled from the spec: `add_message` appends one message to the end of
the conversation's log, creating the conversation on its first message. -/
def Store.addMessage : Store → String → String → Message → Store
  | [], user_id, convo_id, m => [((user_id, convo_id), [m])]
  | (k, msgs) :: rest, user_id, convo_id, m =>
      if k = (user_id, convo_id) then (k, msgs ++ [m]) :: rest
      else (k, msgs) :: Store.addMessage rest user_id convo_id m

/-- Appending a list of messages in order, one `add_message` at a time. -/
def Store.addAll (st : Store) (user_id convo_id : String) : List Message → Store
  | [] => st
  | m :: ms => Store.addAll (st.addMessage user_id convo_id m) user_id convo_id ms

/-- Python `convo_id or self.get_next_convo_id(user_id)`: `None` and the
empty string are falsy, anything else is returned as is. -/
def resolveConvoId (convo_id : Option String) (next_id : String) : String :=
  match convo_id with
  | some s => if s = "" then next_id else s
  | none => next_id

/-- The error message built by the `except` branch of `update_convo` in
`examples/10_generate_speech.py` (line 107) and
`examples/11_generate_speech_advanced.py` (line 336). -/
def speechErrorContent (e : String) : String :=
  "❌ Failed to generate speech: " ++ e

namespace SpeechGeneratorChat

/-- `examples/10_generate_speech.py` lines 77–111,
`SpeechGeneratorChat.update_convo` (the control flow of
`AdvancedSpeechGeneratorChat.update_convo` in
`examples/11_generate_speech_advanced.py` lines 295–340 is identical up to
the extra TTS settings passed to `generate_speech`).  `generate_speech`
performs network and file I/O; its outcome is the `speech` parameter —
`.ok path` when it returns a file path, `.error e` when it raises an
exception rendered as the string `str(e)`.  `add_message` is the
spec-modelled `Store.addMessage`. -/
def update_convo (st : Store) (user_id user_message : String)
    (convo_id : Option String) (next_convo_id : String)
    (speech : Except String String) : Store × String :=
  let cid := resolveConvoId convo_id next_convo_id
  let st1 := st.addMessage user_id cid { role := "user", content := user_message }
  match speech with
  | .ok path =>
      (st1.addMessage user_id cid
        { role := "assistant", content := "", audio_file := some path }, cid)
  | .error e =>
      (st1.addMessage user_id cid
        { role := "assistant", content := speechErrorContent e }, cid)

end SpeechGeneratorChat

/-- A well-formed OpenAI chat-completions response carrying display string
`s`: a dict whose `"choices"` entry is a non-empty list of dicts, the first
of which maps `"message"` to a dict mapping `"content"` to the string. -/
def openaiChatWellFormed (r : JValue) (s : String) : Prop :=
  ∃ fields c0 rest mf,
    r = .obj fields ∧
    lookupField fields "choices" = some (.arr (.obj c0 :: rest)) ∧
    lookupField c0 "message" = some (.obj mf) ∧
    lookupField mf "content" = some (.str s)

/-- A well-formed OpenAI completions response carrying display string `s`:
`choices[0].text` is the string. -/
def openaiCompletionsWellFormed (r : JValue) (s : String) : Prop :=
  ∃ fields c0 rest,
    r = .obj fields ∧
    lookupField fields "choices" = some (.arr (.obj c0 :: rest)) ∧
    lookupField c0 "text" = some (.str s)

/-- A well-formed Gemini response carrying display string `s`:
`candidates[0]["content"]["parts"][0]["text"]` is the string. -/
def geminiWellFormed (r : JValue) (s : String) : Prop :=
  ∃ fields c0 candRest cf p0 partsRest,
    r = .obj fields ∧
    lookupField fields "candidates" = some (.arr (.obj c0 :: candRest)) ∧
    lookupField c0 "content" = some (.obj cf) ∧
    lookupField cf "parts" = some (.arr (.obj p0 :: partsRest)) ∧
    lookupField p0 "text" = some (.str s)

/-- A well-formed Anthropic response carrying display string `s`:
`content[0]["text"]` is the string. -/
def anthropicWellFormed (r : JValue) (s : String) : Prop :=
  ∃ fields c0 rest,
    r = .obj fields ∧
    lookupField fields "content" = some (.arr (.obj c0 :: rest)) ∧
    lookupField c0 "text" = some (.str s)

/-- What a well-formed response looks like for the request that elicited it. -/
def wellFormedForRequest (req : Request) (r : JValue) (s : String) : Prop :=
  match req with
  | .openaiChat _ _ => openaiChatWellFormed r s
  | .openaiCompletions _ _ => openaiCompletionsWellFormed r s
  | .geminiSend _ _ => geminiWellFormed r s
  | .anthropicMessages _ _ _ => anthropicWellFormed r s

/-- A remote API is well-formed when every response it returns is
well-formed for the request that elicited it. -/
def remoteWellFormed (remote : Request → JValue) : Prop :=
  ∀ req, ∃ s, wellFormedForRequest req (remote req) s

/-- The flattened prompt described by the spec: one `"role: content"` line
per message, joined by newlines, in input order. -/
def promptLines : List Message → String
  | [] => ""
  | [m] => m.role ++ ": " ++ m.content
  | m :: m' :: rest => m.role ++ ": " ++ m.content ++ "\n" ++ promptLines (m' :: rest)

/-- The tail of a separator-join: `sep ++ a` for each remaining element. -/
def joinTail (sep : String) : List String → String
  | [] => ""
  | a :: as => sep ++ a ++ joinTail sep as

/-- A concrete environment with all three provider keys set, for concrete
evaluations. -/
def envAllKeys : EnvMap := fun k =>
  if k = "OPENAI_API_KEY" then some "sk-openai"
  else if k = "GEMINI_API_KEY" then some "sk-gemini"
  else if k = "ANTHROPIC_API_KEY" then some "sk-anthropic"
  else none

/-- A concrete environment with only `OPENAI_API_KEY` set. -/
def envOnlyOpenAI : EnvMap := fun k =>
  if k = "OPENAI_API_KEY" then some "sk-test" else none

/-- A concrete well-formed OpenAI chat-completions response. -/
def sampleOpenAIChatResponse : JValue :=
  .obj [("choices", .arr [.obj [("message", .obj [("content", .str "hello")])]])]

/-- A concrete well-formed OpenAI completions response. -/
def sampleOpenAICompletionsResponse : JValue :=
  .obj [("choices", .arr [.obj [("text", .str "hello")]])]

/-- A concrete well-formed Gemini response. -/
def sampleGeminiResponse : JValue :=
  .obj [("candidates",
    .arr [.obj [("content", .obj [("parts", .arr [.obj [("text", .str "hello")]])])]])]

/-- A concrete well-formed Anthropic response. -/
def sampleAnthropicResponse : JValue :=
  .obj [("content", .arr [.obj [("text", .str "hello")]])]

/-- A concrete remote API returning a well-formed response to every request. -/
def sampleRemote : Request → JValue := fun req =>
  match req with
  | .openaiChat _ _ => sampleOpenAIChatResponse
  | .openaiCompletions _ _ => sampleOpenAICompletionsResponse
  | .geminiSend _ _ => sampleGeminiResponse
  | .anthropicMessages _ _ _ => sampleAnthropicResponse

/-- A concrete one-message history. -/
def sampleHistory : List Message := [{ role := "user", content := "hi" }]

/-! ## Helper lemmas -/

theorem joinTail_intercalate_go (sep : String) :
    ∀ (l : List String) (acc : String),
      String.intercalate.go acc sep l = acc ++ joinTail sep l := by
  intro l
  induction l with
  | nil => intro acc; simp [String.intercalate.go, joinTail]
  | cons b t ih =>
      intro acc
      rw [String.intercalate.go, ih, joinTail]
      simp [String.append_assoc]

theorem intercalate_cons_eq (sep a : String) (l : List String) :
    String.intercalate sep (a :: l) = a ++ joinTail sep l := by
  rw [String.intercalate, joinTail_intercalate_go]

theorem Registry.lookup_insert_self (r : Registry) (key : RegKey) (v : AdapterEntry) :
    (r.insert key v).lookup key = some v := by
  induction r with
  | nil => simp [Registry.insert, Registry.lookup]
  | cons kv rest ih =>
      by_cases h : kv.1 = key
      · simp [Registry.insert, h, Registry.lookup]
      · simp [Registry.insert, h, Registry.lookup, ih]

theorem Store.getMessages_addMessage_self (st : Store) (u c : String) (m : Message) :
    (st.addMessage u c m).getMessages u c = st.getMessages u c ++ [m] := by
  induction st with
  | nil => simp [Store.addMessage, Store.getMessages]
  | cons kv rest ih =>
      by_cases h : kv.1 = (u, c)
      · simp [Store.addMessage, h, Store.getMessages]
      · simp [Store.addMessage, h, Store.getMessages, ih]

theorem Store.getMessages_addAll_self (u c : String) :
    ∀ (ms : List Message) (st : Store),
      (st.addAll u c ms).getMessages u c = st.getMessages u c ++ ms := by
  intro ms
  induction ms with
  | nil => intro st; simp [Store.addAll]
  | cons m rest ih =>
      intro st
      rw [Store.addAll, ih, Store.getMessages_addMessage_self]
      simp

theorem openaiChat_extract_wellFormed (r : JValue) (s : String)
    (h : openaiChatWellFormed r s) :
    OpenAIChatCompletions.extract r = .ok (.str s) := by
  obtain ⟨fields, c0, rest, mf, rfl, h1, h2, h3⟩ := h
  simp [OpenAIChatCompletions.extract, JValue.getItem, JValue.index,
    h1, h2, h3, Bind.bind, Except.bind]

theorem openaiCompletions_extract_wellFormed (r : JValue) (s : String)
    (h : openaiCompletionsWellFormed r s) :
    OpenAIResponses.extract r = .ok (.str s) := by
  obtain ⟨fields, c0, rest, rfl, h1, h2⟩ := h
  simp [OpenAIResponses.extract, JValue.getItem, JValue.index,
    h1, h2, Bind.bind, Except.bind]

theorem gemini_extract_wellFormed (r : JValue) (s : String)
    (h : geminiWellFormed r s) :
    GeminiChatCompletions.extract r = .ok (.str s) := by
  obtain ⟨fields, c0, candRest, cf, p0, partsRest, rfl, h1, h2, h3, h4⟩ := h
  simp [GeminiChatCompletions.extract, JValue.getItem, JValue.index,
    h1, h2, h3, h4, Bind.bind, Except.bind]

theorem anthropic_extract_wellFormed (r : JValue) (s : String)
    (h : anthropicWellFormed r s) :
    AnthropicChatCompletions.extract r = .ok (.str s) := by
  obtain ⟨fields, c0, rest, rfl, h1, h2⟩ := h
  simp [AnthropicChatCompletions.extract, JValue.getItem, JValue.index,
    h1, h2, Bind.bind, Except.bind]

theorem sampleRemote_wellFormed : remoteWellFormed sampleRemote := by
  intro req
  refine ⟨"hello", ?_⟩
  cases req with
  | openaiChat model msgs =>
      exact ⟨_, _, _, _, rfl, rfl, rfl, rfl⟩
  | openaiCompletions model prompt =>
      exact ⟨_, _, _, rfl, rfl, rfl⟩
  | geminiSend model msg =>
      exact ⟨_, _, _, _, _, _, rfl, rfl, rfl, rfl, rfl⟩
  | anthropicMessages model msgs mt =>
      exact ⟨_, _, _, rfl, rfl, rfl⟩

/-! ## Claim theorems -/

/-- C1 (counterexample to the claim as stated): not every entry of the
`AI_REGISTRY` built in `DashAIChat.__init__` provides all four capabilities —
the dict at key `("openai", "chat.completions")` has no `client_factory`. -/
theorem c1_counterexample : ¬ allImplementFour dashAIChatInitRegistry := by
  intro h
  have h0 := h (.p "openai" "chat.completions", dashOpenAIChatEntry)
    (by simp [dashAIChatInitRegistry])
  have hcf := h0.1
  simp [dashOpenAIChatEntry] at hcf

/-- C1 (amended): every entry of the registry returned by
`build_default_registry` implements all four capabilities, while every entry
of the `AI_REGISTRY` dict built in `DashAIChat.__init__` provides only
`call`, `extract` and `format_messages` and lacks `client_factory`. -/
theorem c1_registry_capabilities :
    allImplementFour build_default_registry ∧
    (∀ ke : RegKey × AdapterEntry, ke ∈ dashAIChatInitRegistry →
      ke.2.client_factory = none ∧ ke.2.call.isSome ∧ ke.2.extract.isSome ∧
        ke.2.format_messages.isSome) := by
  constructor
  · intro ke hke
    simp only [build_default_registry, List.mem_cons, List.mem_singleton,
      List.not_mem_nil, or_false] at hke
    rcases hke with rfl | rfl | rfl <;>
      simp [AdapterEntry.hasAllFour, OpenAIChatCompletions.entry,
        GeminiChatCompletions.entry, AnthropicChatCompletions.entry]
  · intro ke hke
    simp only [dashAIChatInitRegistry, List.mem_cons, List.mem_singleton,
      List.not_mem_nil, or_false] at hke
    rcases hke with rfl | rfl <;>
      simp [dashOpenAIChatEntry, dashOpenAICompletionsEntry]

/-- C1 (witness): the theorem applied to the `"openai:chat.completions"`
entry of the default registry and the first entry of the `DashAIChat`
registry. -/
theorem c1_witness :
    OpenAIChatCompletions.entry.hasAllFour ∧
      dashOpenAIChatEntry.client_factory = none :=
  ⟨c1_registry_capabilities.1 (.s "openai:chat.completions", OpenAIChatCompletions.entry)
      (by simp [build_default_registry]),
   (c1_registry_capabilities.2 (.p "openai" "chat.completions", dashOpenAIChatEntry)
      (by simp [dashAIChatInitRegistry])).1⟩

/-- C2 (counterexample to the claim as stated): the keys of the
`AI_REGISTRY` built in `DashAIChat.__init__` are tuples such as
`("openai", "chat.completions")`, not strings of the form
`"<vendor>:<api>"`. -/
theorem c2_counterexample : ¬ allKeysVendorApiStrings dashAIChatInitRegistry := by
  intro h
  have h0 := h (.p "openai" "chat.completions", dashOpenAIChatEntry)
    (by simp [dashAIChatInitRegistry])
  obtain ⟨v, a, -, -, heq⟩ := h0
  exact RegKey.noConfusion heq

/-- C2 (amended): every key of the registry returned by
`build_default_registry` is a string of the form `"<vendor>:<api>"`, while
every key of the `AI_REGISTRY` dict built in `DashAIChat.__init__` is a
`(vendor, api)` tuple instead. -/
theorem c2_registry_key_forms :
    allKeysVendorApiStrings build_default_registry ∧
    (∀ ke : RegKey × AdapterEntry, ke ∈ dashAIChatInitRegistry →
      ∃ v a, ke.1 = .p v a) := by
  constructor
  · intro ke hke
    simp only [build_default_registry, List.mem_cons, List.mem_singleton,
      List.not_mem_nil, or_false] at hke
    rcases hke with rfl | rfl | rfl
    · exact ⟨"openai", "chat.completions", by decide, by decide, rfl⟩
    · exact ⟨"gemini", "chat.completions", by decide, by decide, rfl⟩
    · exact ⟨"anthropic", "chat.completions", by decide, by decide, rfl⟩
  · intro ke hke
    simp only [dashAIChatInitRegistry, List.mem_cons, List.mem_singleton,
      List.not_mem_nil, or_false] at hke
    rcases hke with rfl | rfl
    · exact ⟨"openai", "chat.completions", rfl⟩
    · exact ⟨"openai", "completions", rfl⟩

/-- C2 (witness): the theorem applied to the `"gemini:chat.completions"` key
of the default registry. -/
theorem c2_witness :
    ∃ v a, v ≠ "" ∧ a ≠ "" ∧
      ((RegKey.s "gemini:chat.completions", GeminiChatCompletions.entry) :
        RegKey × AdapterEntry).1 = .s (v ++ ":" ++ a) :=
  c2_registry_key_forms.1 (.s "gemini:chat.completions", GeminiChatCompletions.entry)
    (by simp [build_default_registry])

/-- C3: appending N messages in order to a conversation that has no messages
yet, then reloading the conversation, yields exactly the same N messages in
the same order. -/
theorem c3_append_reload_roundtrip (st : Store) (u c : String) (ms : List Message)
    (h : st.getMessages u c = []) :
    (st.addAll u c ms).getMessages u c = ms := by
  rw [Store.getMessages_addAll_self, h, List.nil_append]

/-- C3 (witness): two concrete messages appended to an empty store reload as
themselves. -/
theorem c3_witness :
    (Store.addAll ([] : List ((String × String) × List Message)) "u1" "c1"
        [{ role := "user", content := "hi" }, { role := "assistant", content := "yo" }]).getMessages
        "u1" "c1" =
      [{ role := "user", content := "hi" }, { role := "assistant", content := "yo" }] :=
  c3_append_reload_roundtrip [] "u1" "c1"
    [{ role := "user", content := "hi" }, { role := "assistant", content := "yo" }] rfl

/-- C4: after inserting a new adapter under a key already present in the
registry, lookup of that key yields the new adapter and dispatch for that
key runs the new adapter (last-write-wins dict update). -/
theorem c4_registry_overwrite (r : Registry) (key : RegKey) (eold enew : AdapterEntry)
    (_hold : r.lookup key = some eold) :
    (r.insert key enew).lookup key = some enew ∧
    ∀ (env : EnvMap) (remote : Request → JValue) (history : List Message) (model : String),
      (r.insert key enew).dispatch key env remote history model =
        runEntry enew env remote history model := by
  refine ⟨Registry.lookup_insert_self r key enew, ?_⟩
  intro env remote history model
  simp [Registry.dispatch, Registry.lookup_insert_self]

/-- C4 (witness): overwriting the `"openai:chat.completions"` entry of the
default registry with the Anthropic adapter makes lookup and dispatch use
the Anthropic adapter. -/
theorem c4_witness :
    (build_default_registry.insert (.s "openai:chat.completions")
        AnthropicChatCompletions.entry).lookup (.s "openai:chat.completions") =
      some AnthropicChatCompletions.entry ∧
    (build_default_registry.insert (.s "openai:chat.completions")
        AnthropicChatCompletions.entry).dispatch (.s "openai:chat.completions")
        envAllKeys sampleRemote sampleHistory "claude-3-5-sonnet" =
      runEntry AnthropicChatCompletions.entry envAllKeys sampleRemote sampleHistory
        "claude-3-5-sonnet" := by
  have h := c4_registry_overwrite build_default_registry (.s "openai:chat.completions")
    OpenAIChatCompletions.entry AnthropicChatCompletions.entry
    (by simp [build_default_registry, Registry.lookup])
  exact ⟨h.1, h.2 envAllKeys sampleRemote sampleHistory "claude-3-5-sonnet"⟩

/-- C5: for every well-formed provider response,
`OpenAIChatCompletions.extract` returns the string at
`choices[0].message.content` and `AnthropicChatCompletions.extract` returns
the string at `content[0].text`; and for every adapter registered in
`build_default_registry`, running the four methods in sequence — with the
needed environment variable set, a non-empty history, and a remote returning
well-formed responses — returns a displayable string. -/
theorem c5_adapters_return_display_string :
    (∀ (r : JValue) (s : String), openaiChatWellFormed r s →
        OpenAIChatCompletions.extract r = .ok (.str s)) ∧
    (∀ (r : JValue) (s : String), anthropicWellFormed r s →
        AnthropicChatCompletions.extract r = .ok (.str s)) ∧
    (∀ (key : RegKey) (e : AdapterEntry),
      build_default_registry.lookup key = some e →
      ∀ (env : EnvMap) (remote : Request → JValue) (history : List Message)
        (model : String),
        (env "OPENAI_API_KEY").isSome → (env "GEMINI_API_KEY").isSome →
        (env "ANTHROPIC_API_KEY").isSome → history ≠ [] →
        remoteWellFormed remote →
        ∃ s, runEntry e env remote history model = .ok (.str s)) := by
  refine ⟨openaiChat_extract_wellFormed, anthropic_extract_wellFormed, ?_⟩
  intro key e hlookup env remote history model hoa hg ha hne hrem
  simp only [build_default_registry, Registry.lookup] at hlookup
  split at hlookup
  · injection hlookup with he
    subst he
    obtain ⟨ak, hak⟩ := Option.isSome_iff_exists.mp hoa
    obtain ⟨s, hs⟩ := hrem (.openaiChat model (OpenAIChatCompletions.format_messages history))
    refine ⟨s, ?_⟩
    have hres := openaiChat_extract_wellFormed _ _ hs
    simp [runEntry, OpenAIChatCompletions.entry, OpenAIChatCompletions.client_factory,
      OpenAIChatCompletions.call, hak, Bind.bind, Except.bind, hres]
  · split at hlookup
    · injection hlookup with he
      subst he
      obtain ⟨gk, hgk⟩ := Option.isSome_iff_exists.mp hg
      obtain ⟨lm, hlm⟩ := Option.isSome_iff_exists.mp (List.getLast?_isSome.mpr hne)
      obtain ⟨s, hs⟩ := hrem (.geminiSend model lm.content)
      refine ⟨s, ?_⟩
      have hres := gemini_extract_wellFormed _ _ hs
      simp [runEntry, GeminiChatCompletions.entry, GeminiChatCompletions.client_factory,
        GeminiChatCompletions.call, GeminiChatCompletions.format_messages,
        hgk, hlm, Bind.bind, Except.bind, hres]
    · split at hlookup
      · injection hlookup with he
        subst he
        obtain ⟨ank, hank⟩ := Option.isSome_iff_exists.mp ha
        obtain ⟨s, hs⟩ :=
          hrem (.anthropicMessages model (AnthropicChatCompletions.format_messages history) 1000)
        refine ⟨s, ?_⟩
        have hres := anthropic_extract_wellFormed _ _ hs
        simp [runEntry, AnthropicChatCompletions.entry,
          AnthropicChatCompletions.client_factory, AnthropicChatCompletions.call,
          hank, Bind.bind, Except.bind, hres]
      · exact absurd hlookup (by simp)

/-- C5 (witness): the Gemini entry of the default registry, run end to end
on a concrete environment, remote and history, returns a display string. -/
theorem c5_witness :
    ∃ s, runEntry GeminiChatCompletions.entry envAllKeys sampleRemote sampleHistory
        "gemini-2.0-flash" = .ok (.str s) :=
  c5_adapters_return_display_string.2.2 (.s "gemini:chat.completions")
    GeminiChatCompletions.entry (by rfl)
    envAllKeys sampleRemote sampleHistory "gemini-2.0-flash"
    (by simp [envAllKeys]) (by simp [envAllKeys]) (by simp [envAllKeys])
    (by simp [sampleHistory]) sampleRemote_wellFormed

/-- C6: `format_messages` of the OpenAI and Anthropic chat adapters maps the
history to role/content records of the same length, in the same order, each
record keeping exactly the message's role and content; `format_messages` of
`OpenAIResponses` is the newline-join of one `"role: content"` line per
message, in input order. -/
theorem c6_format_messages_shapes (history : List Message) :
    OpenAIChatCompletions.format_messages history =
        history.map (fun m => { role := m.role, content := m.content }) ∧
    (OpenAIChatCompletions.format_messages history).length = history.length ∧
    AnthropicChatCompletions.format_messages history =
        history.map (fun m => { role := m.role, content := m.content }) ∧
    (AnthropicChatCompletions.format_messages history).length = history.length ∧
    OpenAIResponses.format_messages history = promptLines history := by
  refine ⟨rfl, ?_, rfl, ?_, ?_⟩
  · simp [OpenAIChatCompletions.format_messages]
  · simp [AnthropicChatCompletions.format_messages]
  · induction history with
    | nil => rfl
    | cons m t ih =>
        cases t with
        | nil =>
            simp [OpenAIResponses.format_messages, promptLines,
              intercalate_cons_eq, joinTail]
        | cons m2 t2 =>
            rw [OpenAIResponses.format_messages, List.map_cons,
              intercalate_cons_eq, promptLines, ← ih,
              OpenAIResponses.format_messages, List.map_cons, intercalate_cons_eq]
            simp [joinTail, String.append_assoc]

/-- C7: when `generate_speech` (the provider call) raises, `update_convo`
catches the exception, appends an assistant-role message whose content
renders the error, keeps the previously appended user message, and still
returns the conversation identifier. -/
theorem c7_update_convo_error_handling (st : Store) (u msg : String)
    (cidOpt : Option String) (next e : String) :
    (SpeechGeneratorChat.update_convo st u msg cidOpt next (.error e)).2 =
        resolveConvoId cidOpt next ∧
    (SpeechGeneratorChat.update_convo st u msg cidOpt next (.error e)).1.getMessages
        u (resolveConvoId cidOpt next) =
      st.getMessages u (resolveConvoId cidOpt next) ++
        [{ role := "user", content := msg },
         { role := "assistant", content := speechErrorContent e }] := by
  refine ⟨rfl, ?_⟩
  simp [SpeechGeneratorChat.update_convo, Store.getMessages_addMessage_self]

/-- C8: the OpenAI, Gemini and Anthropic chat `client_factory`s read exactly
the environment variables `OPENAI_API_KEY`, `GEMINI_API_KEY` and
`ANTHROPIC_API_KEY` respectively (each depends on no other variable),
construct a client from the key when the variable is set, and raise
`KeyError` on the variable's name when it is unset. -/
theorem c8_client_factory_env_vars (env env2 : EnvMap) (k : String) :
    ((env "OPENAI_API_KEY" = env2 "OPENAI_API_KEY" →
        OpenAIChatCompletions.client_factory env =
          OpenAIChatCompletions.client_factory env2) ∧
     (env "OPENAI_API_KEY" = some k →
        OpenAIChatCompletions.client_factory env =
          .ok { vendor := "openai", api_key := k }) ∧
     (env "OPENAI_API_KEY" = none →
        OpenAIChatCompletions.client_factory env =
          .error (.keyError "OPENAI_API_KEY"))) ∧
    ((env "GEMINI_API_KEY" = env2 "GEMINI_API_KEY" →
        GeminiChatCompletions.client_factory env =
          GeminiChatCompletions.client_factory env2) ∧
     (env "GEMINI_API_KEY" = some k →
        GeminiChatCompletions.client_factory env =
          .ok { vendor := "gemini", api_key := k }) ∧
     (env "GEMINI_API_KEY" = none →
        GeminiChatCompletions.client_factory env =
          .error (.keyError "GEMINI_API_KEY"))) ∧
    ((env "ANTHROPIC_API_KEY" = env2 "ANTHROPIC_API_KEY" →
        AnthropicChatCompletions.client_factory env =
          AnthropicChatCompletions.client_factory env2) ∧
     (env "ANTHROPIC_API_KEY" = some k →
        AnthropicChatCompletions.client_factory env =
          .ok { vendor := "anthropic", api_key := k }) ∧
     (env "ANTHROPIC_API_KEY" = none →
        AnthropicChatCompletions.client_factory env =
          .error (.keyError "ANTHROPIC_API_KEY"))) := by
  refine ⟨⟨?_, ?_, ?_⟩, ⟨?_, ?_, ?_⟩, ⟨?_, ?_, ?_⟩⟩ <;> intro h <;>
    simp [OpenAIChatCompletions.client_factory, GeminiChatCompletions.client_factory,
      AnthropicChatCompletions.client_factory, h]

/-- C8 (witness): in an environment where only `OPENAI_API_KEY` is set, the
OpenAI factory returns a client holding that key and the Gemini and
Anthropic factories raise `KeyError` on their own variable names. -/
theorem c8_witness :
    OpenAIChatCompletions.client_factory envOnlyOpenAI =
        .ok { vendor := "openai", api_key := "sk-test" } ∧
    GeminiChatCompletions.client_factory envOnlyOpenAI =
        .error (.keyError "GEMINI_API_KEY") ∧
    AnthropicChatCompletions.client_factory envOnlyOpenAI =
        .error (.keyError "ANTHROPIC_API_KEY") :=
  ⟨(c8_client_factory_env_vars envOnlyOpenAI envOnlyOpenAI "sk-test").1.2.1
      (by simp [envOnlyOpenAI]),
   (c8_client_factory_env_vars envOnlyOpenAI envOnlyOpenAI "sk-test").2.1.2.2
      (by simp [envOnlyOpenAI]),
   (c8_client_factory_env_vars envOnlyOpenAI envOnlyOpenAI "sk-test").2.2.2.2
      (by simp [envOnlyOpenAI])⟩

/-- C9: `GeminiChatCompletions.call` depends only on the content of the last
message — two histories with last messages of equal content produce the same
request, all earlier messages being ignored — and on an empty message list
it raises `IndexError` (from `messages[-1]`). -/
theorem c9_gemini_uses_only_last_message (client : Client) (model : String) :
    (∀ (l1 l2 : List Message) (x1 x2 : Message), x1.content = x2.content →
      GeminiChatCompletions.call client (l1 ++ [x1]) model =
        GeminiChatCompletions.call client (l2 ++ [x2]) model) ∧
    GeminiChatCompletions.call client [] model = .error .indexError := by
  refine ⟨?_, rfl⟩
  intro l1 l2 x1 x2 hx
  simp [GeminiChatCompletions.call, List.getLast?_concat, hx]

/-- C9 (witness): a two-message history and a one-message history with the
same last content produce the same Gemini request. -/
theorem c9_witness :
    GeminiChatCompletions.call { vendor := "gemini", api_key := "sk-g" }
        ([{ role := "system", content := "be brief" }] ++
          [{ role := "user", content := "hi" }]) "gemini-2.0-flash" =
      GeminiChatCompletions.call { vendor := "gemini", api_key := "sk-g" }
        ([] ++ [{ role := "user", content := "hi" }]) "gemini-2.0-flash" :=
  (c9_gemini_uses_only_last_message { vendor := "gemini", api_key := "sk-g" }
      "gemini-2.0-flash").1
    [{ role := "system", content := "be brief" }] []
    { role := "user", content := "hi" } { role := "user", content := "hi" } rfl

/-- C10: `OpenAIResponses.client_factory` raises `NameError` on every
invocation (the name `OpenAI` is bound neither locally nor at module scope),
and `build_default_registry` has no `"openai:responses"` key. -/
theorem c10_responses_client_factory_name_error :
    ∀ env : EnvMap,
      OpenAIResponses.client_factory env = .error (.nameError "OpenAI") ∧
        build_default_registry.lookup (.s "openai:responses") = none := by
  intro env
  refine ⟨?_, ?_⟩
  · simp [OpenAIResponses.client_factory, providersModuleScope]
  · simp [build_default_registry, Registry.lookup]
